import Mathlib

/-!
Verification of the pagr portfolio-graph ETL core.

Shallow embedding of the data model and operations of the repository
(`src/pagr/fds/...`) and proofs of the specified properties.

Numeric values (quantities, book values, market values, weights) are
modelled as exact rationals (`ℚ`): the source uses Python floats, and the
spec states its numeric invariants up to a floating-point tolerance of
`1e-6`; over `ℚ` the invariants are provable exactly, which implies the
toleranced statements.  Python string truthiness (empty string is falsy,
`None` is falsy) is modelled explicitly where the source relies on it.
-/

/-- A single-quote character as a string, used when composing Cypher
statement text. -/
def sglq : String := "\x27"

/-- `pagr.fds.models.portfolio.Position`.  One holding line.

The class in `models/portfolio.py` declares `ticker: str` required, but the
loader (`portfolio_loader.py` line 149) constructs positions with
`ticker=None` for bonds, the pipeline routes on `if position.ticker:`, and
the model tests build ticker-less positions; the effective model field is
optional, as the spec states.  `cost_basis` is read by
`GraphBuilder.add_position_nodes` and validated by the validator, so it is
carried here as an optional field (never set by the loader). -/
structure Position where
  ticker : Option String := none
  quantity : ℚ
  book_value : ℚ
  security_type : String := "Common Stock"
  isin : Option String := none
  cusip : Option String := none
  market_value : Option ℚ := none
  purchase_date : Option String := none
  weight : Option ℚ := none
  cost_basis : Option ℚ := none
  deriving Repr, DecidableEq

/-- `pagr.fds.models.portfolio.Portfolio`. -/
structure Portfolio where
  name : String := "Portfolio"
  created_at : Option String := none
  positions : List Position := []
  total_value : Option ℚ := none
  deriving Repr, DecidableEq

/-- Python truthiness of an optional string: `None` and `""` are falsy. -/
def optStrTruthy : Option String → Bool
  | none => false
  | some s => s != ""

/-- Python truthiness of an optional number: `None` and `0` are falsy. -/
def optNumTruthy : Option ℚ → Bool
  | none => false
  | some q => q != 0

/-- `Portfolio.calculate_weights` (`models/portfolio.py` lines 68-103).

If any position has a market value, the total is the sum of market values
(missing market values contribute 0); otherwise the total is the sum of
book values.  Weights are `value / total * 100` when the total is positive
and 0 otherwise.  An empty position list sets the total to 0 and returns
without touching weights. -/
def calculate_weights (p : Portfolio) : Portfolio :=
  if p.positions = [] then
    { p with total_value := some 0 }
  else
    let has_market_value := p.positions.any (fun q => q.market_value.isSome)
    if has_market_value then
      let total := (p.positions.map (fun q => q.market_value.getD 0)).sum
      if 0 < total then
        { p with total_value := some total,
                 positions := p.positions.map (fun q =>
                   { q with weight := some (q.market_value.getD 0 / total * 100) }) }
      else
        { p with total_value := some total,
                 positions := p.positions.map (fun q => { q with weight := some 0 }) }
    else
      let total := (p.positions.map (fun q => q.book_value)).sum
      if 0 < total then
        { p with total_value := some total,
                 positions := p.positions.map (fun q =>
                   { q with weight := some (q.book_value / total * 100) }) }
      else
        { p with total_value := some total,
                 positions := p.positions.map (fun q => { q with weight := some 0 }) }

/-- Sum of the weights of all positions of a portfolio (absent weight
counts as 0, matching how an unset weight would read downstream). -/
def sumWeights (p : Portfolio) : ℚ :=
  (p.positions.map (fun q => q.weight.getD 0)).sum

/-- Distributing a `· / t * 100` rescaling over a list sum. -/
theorem sum_map_div_mul (l : List Position) (f : Position → ℚ) (t : ℚ) :
    (l.map (fun q => f q / t * 100)).sum = (l.map f).sum / t * 100 := by
  induction l with
  | nil => simp
  | cons a l ih => simp [ih, add_div, add_mul]

/-- After rescaling by a positive total that equals the list sum, the
weights sum to exactly 100. -/
theorem sum_rescaled (l : List Position) (f : Position → ℚ)
    (ht : 0 < (l.map f).sum) :
    (l.map (fun q => f q / (l.map f).sum * 100)).sum = 100 := by
  rw [sum_map_div_mul, div_self (ne_of_gt ht)]
  norm_num

/-- Reading back the weights just written by a weight-setting map. -/
theorem sumWeights_set (l : List Position) (g : Position → ℚ) :
    ((l.map (fun q => { q with weight := some (g q) })).map
      (fun q => q.weight.getD 0)).sum = (l.map g).sum := by
  rw [List.map_map]
  rfl

/-- C1.  After `calculate_weights`: a positive resulting total value means
the weights sum to 100 (within the spec tolerance `1e-6`; over `ℚ` the sum
is exactly 100), and a zero resulting total value means every position has
weight 0. -/
theorem calculate_weights_sum_invariant (p : Portfolio) :
    (∀ t : ℚ, (calculate_weights p).total_value = some t → 0 < t →
      |sumWeights (calculate_weights p) - 100| ≤ 1 / 1000000) ∧
    ((calculate_weights p).total_value = some 0 →
      ∀ q ∈ (calculate_weights p).positions, q.weight = some 0) := by
  unfold calculate_weights sumWeights
  by_cases hnil : p.positions = []
  · simp [hnil]
  · simp only [hnil, if_false]
    split_ifs with hmv hpos hpos
    · constructor
      · intro t _ _
        rw [sumWeights_set, sum_rescaled _ _ hpos]
        norm_num
      · intro h0
        simp only [Option.some.injEq] at h0
        rw [h0] at hpos
        exact absurd hpos (lt_irrefl 0)
    · constructor
      · intro t ht htpos
        simp only [Option.some.injEq] at ht
        rw [← ht] at htpos
        exact absurd htpos hpos
      · intro _ q hq
        simp only [List.mem_map] at hq
        obtain ⟨r, -, hr⟩ := hq
        rw [← hr]
    · constructor
      · intro t _ _
        rw [sumWeights_set, sum_rescaled _ _ hpos]
        norm_num
      · intro h0
        simp only [Option.some.injEq] at h0
        rw [h0] at hpos
        exact absurd hpos (lt_irrefl 0)
    · constructor
      · intro t ht htpos
        simp only [Option.some.injEq] at ht
        rw [← ht] at htpos
        exact absurd htpos hpos
      · intro _ q hq
        simp only [List.mem_map] at hq
        obtain ⟨r, -, hr⟩ := hq
        rw [← hr]

/-- C1 witness: the invariant evaluated on a concrete two-position
portfolio (book values 30 and 70, no market values). -/
theorem calculate_weights_sum_invariant_witness :
    |sumWeights (calculate_weights
      { name := "W", positions :=
        [{ ticker := some "A-US", quantity := 1, book_value := 30 },
         { ticker := some "B-US", quantity := 2, book_value := 70 }] }) - 100|
      ≤ 1 / 1000000 :=
  (calculate_weights_sum_invariant _).1 100
    (by simp [calculate_weights]; norm_num) (by norm_num)

/-- C10.  In `calculate_weights`, when at least one position has a market
value: the total is the sum of market values only (a missing market value
contributes 0, book value ignored), and every position without a market
value gets weight exactly 0. -/
theorem calculate_weights_market_value_only (p : Portfolio)
    (h : p.positions.any (fun q => q.market_value.isSome) = true) :
    (calculate_weights p).total_value =
      some ((p.positions.map (fun q => q.market_value.getD 0)).sum) ∧
    ∀ q ∈ (calculate_weights p).positions, q.market_value = none → q.weight = some 0 := by
  have hnil : p.positions ≠ [] := by
    intro hnil
    rw [hnil] at h
    simp [List.any] at h
  unfold calculate_weights
  simp only [hnil, if_false, h, if_true]
  split_ifs with hpos
  · refine ⟨rfl, ?_⟩
    intro q hq hmv
    simp only [List.mem_map] at hq
    obtain ⟨r, -, hr⟩ := hq
    have hrm : r.market_value = none := by
      rw [← hr] at hmv
      exact hmv
    rw [← hr]
    simp [hrm]
  · refine ⟨rfl, ?_⟩
    intro q hq _
    simp only [List.mem_map] at hq
    obtain ⟨r, -, hr⟩ := hq
    rw [← hr]

/-- C10 witness: a two-position portfolio where only the first position has
a market value (50); the second position (book value 70) contributes 0 and
receives weight 0. -/
theorem calculate_weights_market_value_only_witness :
    (calculate_weights
      { name := "W", positions :=
        [{ ticker := some "A-US", quantity := 1, book_value := 30,
           market_value := some 50 },
         { ticker := some "B-US", quantity := 2, book_value := 70 }] }).total_value =
      some (([{ ticker := some "A-US", quantity := 1, book_value := 30,
                market_value := some 50 },
              { ticker := some "B-US", quantity := 2, book_value := 70 }].map
        (fun q : Position => q.market_value.getD 0)).sum) ∧
    ∀ q ∈ (calculate_weights
      { name := "W", positions :=
        [{ ticker := some "A-US", quantity := 1, book_value := 30,
           market_value := some 50 },
         { ticker := some "B-US", quantity := 2, book_value := 70 }] }).positions,
      q.market_value = none → q.weight = some 0 :=
  calculate_weights_market_value_only _ (by decide)

/-- Modelled from the spec: `Position.get_primary_identifier`.  The method
is called by the loader (`portfolio_loader.py` line 166), the validator
(`validator.py` line 203) and the pipeline (`pipeline.py` lines 156, 333,
384, 469, 650) and exercised by `tests/test_position_bond_validation.py`,
but its definition is not present under `src/`.  The spec fixes the
identifier precedence CUSIP > ISIN > ticker as "the fixed order used to
pick a position's authoritative key"; the result is the `(id_type,
id_value)` pair, and a position with no identifier present yields `none`
(the validator skips such entries, mirroring its dict fallback which
applies the same precedence). -/
def get_primary_identifier (p : Position) : Option (String × String) :=
  if optStrTruthy p.cusip then some ("cusip", p.cusip.getD "")
  else if optStrTruthy p.isin then some ("isin", p.isin.getD "")
  else if optStrTruthy p.ticker then some ("ticker", p.ticker.getD "")
  else none

/-- C2.  A position with both a CUSIP and an ISIN set resolves its primary
identifier to the CUSIP, per the CUSIP > ISIN > ticker precedence. -/
theorem get_primary_identifier_prefers_cusip (p : Position) (c : String)
    (hc : p.cusip = some c) (hc' : c ≠ "") :
    get_primary_identifier p = some ("cusip", c) := by
  unfold get_primary_identifier
  rw [hc]
  simp [optStrTruthy, hc']

/-- C2 witness: a position carrying ticker, ISIN and CUSIP resolves to the
CUSIP. -/
theorem get_primary_identifier_prefers_cusip_witness :
    get_primary_identifier
      { ticker := some "AAPL-US", quantity := 100, book_value := 10000,
        isin := some "US912828Z772", cusip := some "037833AA5" } =
      some ("cusip", "037833AA5") :=
  get_primary_identifier_prefers_cusip _ "037833AA5" rfl (by decide)

/-- The `"{id_type}:{id_value}"` identifier string built by
`PositionValidator.validate_no_duplicates` (`validator.py` line 204) for a
position, when the position has a primary identifier. -/
def primaryIdentifierStr (p : Position) : Option String :=
  (get_primary_identifier p).map (fun ti => ti.1 ++ ":" ++ ti.2)

/-- Validation failure raised by the validator.  The `duplicates` list is
what the raised message is formatted from (`validator.py` lines 232-237);
the exact message text is not modelled. -/
structure ValidationError where
  duplicates : List String
  deriving Repr, DecidableEq

/-- The duplicate-finding loop of `validate_no_duplicates` (`validator.py`
lines 224-230): walk the identifier strings with a `seen` set, collecting
every identifier already seen. -/
def duplicatesLoop : List String → List String → List String
  | [], _ => []
  | id :: rest, seen =>
    if id ∈ seen then id :: duplicatesLoop rest (seen ++ [id])
    else duplicatesLoop rest (seen ++ [id])

/-- `PositionValidator.validate_no_duplicates` (`validator.py` lines
184-237), on `Position` objects: collect each position's primary-identifier
string (positions without any identifier are skipped, as in the dict
fallback), find duplicates, and fail when any exist. -/
def validate_no_duplicates (positions : List Position) : Except ValidationError Unit :=
  let identifiers := positions.filterMap primaryIdentifierStr
  let duplicates := duplicatesLoop identifiers []
  if duplicates = [] then Except.ok () else Except.error ⟨duplicates⟩

/-- Errors with which a load can fail. -/
inductive LoadError
  | validation (e : ValidationError)
  | noPositions
  deriving Repr, DecidableEq

namespace PortfolioLoader

/-- Tail of `PortfolioLoader._read_csv` (`portfolio_loader.py` lines
177-185): after row parsing, the parsed positions are checked for duplicate
primary identifiers and the load is rejected when no position was parsed.
Row parsing and file access are not modelled; `positions` is the parsed
row list. -/
def read_csv_positions (positions : List Position) :
    Except LoadError (List Position) :=
  match validate_no_duplicates positions with
  | Except.error e => Except.error (LoadError.validation e)
  | Except.ok () =>
    if positions = [] then Except.error LoadError.noPositions
    else Except.ok positions

/-- `PortfolioLoader.load` (`portfolio_loader.py` lines 29-83) from parsed
rows: read the positions, build the portfolio, and calculate weights
(line 76) before returning it. -/
def load (portfolio_name : String) (positions : List Position) :
    Except LoadError Portfolio :=
  (read_csv_positions positions).map (fun ps =>
    calculate_weights { name := portfolio_name, positions := ps })

end PortfolioLoader

/-- The duplicates loop returns `[]` exactly when the identifiers are
pairwise distinct and none was already seen. -/
theorem duplicatesLoop_eq_nil_iff (l seen : List String) :
    duplicatesLoop l seen = [] ↔ l.Nodup ∧ ∀ x ∈ l, x ∉ seen := by
  induction l generalizing seen with
  | nil => simp [duplicatesLoop]
  | cons a l ih =>
    by_cases ha : a ∈ seen
    · simp only [duplicatesLoop, ha, if_true]
      constructor
      · intro h
        exact absurd h (List.cons_ne_nil _ _)
      · intro ⟨_, hall⟩
        exact absurd ha (hall a (List.mem_cons_self a l))
    · simp only [duplicatesLoop, ha, if_false]
      rw [ih]
      constructor
      · intro ⟨hnd, hall⟩
        refine ⟨List.nodup_cons.mpr ⟨?_, hnd⟩, ?_⟩
        · intro hmem
          have := hall a hmem
          simp [List.mem_append] at this
        · intro x hx
          rcases List.mem_cons.mp hx with hxa | hxl
          · rw [hxa]; exact ha
          · have := hall x hxl
            simp only [List.mem_append, not_or] at this
            exact this.1
      · intro ⟨hnd, hall⟩
        obtain ⟨hanl, hnd'⟩ := List.nodup_cons.mp hnd
        refine ⟨hnd', ?_⟩
        intro x hx
        simp only [List.mem_append, List.mem_singleton, not_or]
        refine ⟨hall x (List.mem_cons_of_mem a hx), ?_⟩
        intro hxa
        rw [hxa] at hx
        exact hanl hx

/-- C4.  If two loaded positions' primary identifiers (per the CUSIP > ISIN
> ticker precedence) collide, the whole load fails with a validation error;
if no primary identifiers collide, duplicate detection passes. -/
theorem load_duplicate_detection (name : String) (positions : List Position) :
    (∀ l₁ p₁ l₂ p₂ l₃ s, positions = l₁ ++ p₁ :: (l₂ ++ p₂ :: l₃) →
      primaryIdentifierStr p₁ = some s → primaryIdentifierStr p₂ = some s →
      ∃ e, PortfolioLoader.load name positions =
        Except.error (LoadError.validation e)) ∧
    ((positions.filterMap primaryIdentifierStr).Nodup →
      validate_no_duplicates positions = Except.ok ()) := by
  constructor
  · intro l₁ p₁ l₂ p₂ l₃ s hsplit h1 h2
    have hid : positions.filterMap primaryIdentifierStr =
        l₁.filterMap primaryIdentifierStr ++
          s :: (l₂.filterMap primaryIdentifierStr ++
            s :: l₃.filterMap primaryIdentifierStr) := by
      subst hsplit
      simp [List.filterMap_append, List.filterMap_cons, h1, h2]
    have hnotnodup : ¬ (positions.filterMap primaryIdentifierStr).Nodup := by
      rw [hid]
      intro hnd
      have h3 := (List.nodup_append.mp hnd).2.1
      have h4 := (List.nodup_cons.mp h3).1
      exact h4 (List.mem_append_right _ (List.mem_cons_self s _))
    have hdup : duplicatesLoop (positions.filterMap primaryIdentifierStr) [] ≠ [] := by
      intro hd
      exact hnotnodup ((duplicatesLoop_eq_nil_iff _ _).mp hd).1
    refine ⟨⟨duplicatesLoop (positions.filterMap primaryIdentifierStr) []⟩, ?_⟩
    unfold PortfolioLoader.load PortfolioLoader.read_csv_positions
      validate_no_duplicates
    simp only [if_neg hdup, Except.map]
  · intro hnd
    unfold validate_no_duplicates
    have : duplicatesLoop (positions.filterMap primaryIdentifierStr) [] = [] := by
      rw [duplicatesLoop_eq_nil_iff]
      exact ⟨hnd, by simp⟩
    simp only [this, if_pos]

/-- C4 witness: two bond positions sharing CUSIP `037833AA5` make the load
fail with a validation error, while two positions with distinct CUSIPs pass
duplicate detection. -/
theorem load_duplicate_detection_witness :
    (∃ e, PortfolioLoader.load "P"
        [{ quantity := 500, book_value := 50000, cusip := some "037833AA5" },
         { quantity := 300, book_value := 30000, cusip := some "037833AA5" }] =
      Except.error (LoadError.validation e)) ∧
    validate_no_duplicates
        [{ quantity := 500, book_value := 50000, cusip := some "037833AA5" },
         { quantity := 300, book_value := 30000, cusip := some "912828Z77" }] =
      Except.ok () :=
  ⟨(load_duplicate_detection "P" _).1 [] _ [] _ [] "cusip:037833AA5"
      rfl rfl rfl,
   (load_duplicate_detection "P" _).2 (by decide)⟩

/-- C8 counterexample: a successful load of one stock row (book value
19000) returns a portfolio whose position already has weight 100, not
weight 0 — `load` itself invokes `calculate_weights`
(`portfolio_loader.py` line 76). -/
theorem load_weight_nonzero_counterexample :
    (PortfolioLoader.load "Sample"
      [{ ticker := some "AAPL-US", quantity := 100, book_value := 19000 }]).map
      (fun pf => pf.positions.map (fun q => q.weight)) =
      Except.ok [some 100] ∧ some (100 : ℚ) ≠ some 0 := by
  constructor
  · norm_num [PortfolioLoader.load, PortfolioLoader.read_csv_positions,
      validate_no_duplicates, duplicatesLoop, primaryIdentifierStr,
      get_primary_identifier, optStrTruthy, calculate_weights, Except.map]
  · simp

/-- C8 amended.  A successful `PortfolioLoader.load` returns exactly the
portfolio with weights already computed by `calculate_weights`: the caller
need not (and must not expect to) recompute weights to make them
meaningful; they are zero only when the total value is zero. -/
theorem load_returns_calculated_portfolio (name : String)
    (positions : List Position) (pf : Portfolio)
    (h : PortfolioLoader.load name positions = Except.ok pf) :
    pf = calculate_weights { name := name, positions := positions } := by
  unfold PortfolioLoader.load PortfolioLoader.read_csv_positions at h
  cases hv : validate_no_duplicates positions with
  | error e =>
    rw [hv] at h
    simp [Except.map] at h
  | ok u =>
    cases u
    rw [hv] at h
    by_cases hnil : positions = []
    · rw [if_pos hnil] at h
      simp [Except.map] at h
    · rw [if_neg hnil] at h
      simp only [Except.map, Except.ok.injEq] at h
      exact h.symm

/-- C8 amended witness: the amended statement applied to a concrete
successful load. -/
theorem load_returns_calculated_portfolio_witness :
    calculate_weights { name := "Sample", positions :=
      [{ ticker := some "AAPL-US", quantity := 100, book_value := 19000 }] } =
    calculate_weights { name := "Sample", positions :=
      [{ ticker := some "AAPL-US", quantity := 100, book_value := 19000 }] } :=
  load_returns_calculated_portfolio "Sample"
    [{ ticker := some "AAPL-US", quantity := 100, book_value := 19000 }] _ rfl

/-- Modelled from the spec: the `Bond` FIBO entity as constructed by
`BondEnricher.enrich_bond` — "Bond carries ISIN/CUSIP, coupon, currency,
market price, maturity date, security type", keyed by a FIBO id.  The
`Bond` class present in `src/src/pagr/fds/models/fibo.py` is a stale
revision lacking the coupon/currency/market_price/maturity_date fields
that `enrich_bond` sets, so the entity is modelled from the spec here. -/
structure Bond where
  fibo_id : String
  isin : Option String := none
  cusip : Option String := none
  security_type : String := "Bond"
  coupon : Option ℚ := none
  currency : String := "USD"
  market_price : Option ℚ := none
  maturity_date : Option String := none
  deriving Repr, DecidableEq

/-- One record of the provider's bond-price response (`price_response
["data"][i]` in `bond_enricher.py`): every field may be absent. -/
structure BondData where
  price : Option ℚ := none
  coupon : Option ℚ := none
  currency : Option String := none
  maturityDate : Option String := none
  issuer : Option String := none
  deriving Repr, DecidableEq

/-- Outcome of the provider call `client.get_bond_prices`: a data list
(possibly empty), a not-found failure (`FactSetNotFoundError`), or a
client failure (`FactSetClientError`). -/
inductive ProviderResult where
  | success (data : List BondData)
  | notFound
  | clientError
  deriving Repr, DecidableEq

/-- The two provider-call failures seen by the enricher. -/
inductive FactSetFailure where
  | notFound
  | clientError
  deriving Repr, DecidableEq

/-- The bond-details dictionary assembled by
`BondEnricher.get_bond_details` (`bond_enricher.py` lines 132-186). -/
structure BondDetails where
  price : Option ℚ
  coupon : Option ℚ
  currency : String
  maturity_date : Option String
  issuer : Option String
  security_type : String
  deriving Repr, DecidableEq

/-- `BondEnricher.get_bond_details` as a function of the provider
response: an empty data list yields the empty dictionary (`none`); a
non-empty list yields details extracted from `data[0]` with currency
defaulted to `"USD"` and security type fixed to `"Bond"`; provider
failures are re-raised. -/
def get_bond_details (resp : ProviderResult) :
    Except FactSetFailure (Option BondDetails) :=
  match resp with
  | ProviderResult.notFound => Except.error FactSetFailure.notFound
  | ProviderResult.clientError => Except.error FactSetFailure.clientError
  | ProviderResult.success [] => Except.ok none
  | ProviderResult.success (d :: _) =>
    Except.ok (some
      { price := d.price, coupon := d.coupon,
        currency := d.currency.getD "USD",
        maturity_date := d.maturityDate, issuer := d.issuer,
        security_type := "Bond" })

/-- The error `enrich_bond` raises when neither CUSIP nor ISIN is given. -/
inductive BondEnrichmentError where
  | missingIdentifier
  deriving Repr, DecidableEq

/-- The minimal Bond entity built by each of the three
graceful-degradation branches of `enrich_bond` (`bond_enricher.py` lines
64-73, 100-109 and 117-126 construct this same entity). -/
def nulledBond (identifier : String) (isin cusip : Option String) : Bond :=
  { fibo_id := "fibo:bond:" ++ identifier, isin := isin, cusip := cusip,
    security_type := "Bond", coupon := none, currency := "USD",
    market_price := none, maturity_date := none }

/-- `BondEnricher.enrich_bond` (`bond_enricher.py` lines 28-130) as a
function of the provider response.  CUSIP is preferred over ISIN; with
neither, `BondEnrichmentError` is raised.  Empty details, a not-found
failure or a client failure all degrade to the minimal nulled bond; the
unexpected-exception re-raise branch (lines 127-130) is outside the
response model. -/
def enrich_bond (cusip isin : Option String) (resp : ProviderResult) :
    Except BondEnrichmentError Bond :=
  if ¬ (optStrTruthy cusip || optStrTruthy isin) then
    Except.error BondEnrichmentError.missingIdentifier
  else
    let identifier := if optStrTruthy cusip then cusip.getD "" else isin.getD ""
    match get_bond_details resp with
    | Except.ok none => Except.ok (nulledBond identifier isin cusip)
    | Except.ok (some d) =>
      Except.ok
        { fibo_id := "fibo:bond:" ++ identifier, isin := isin, cusip := cusip,
          security_type := d.security_type, coupon := d.coupon,
          currency := d.currency, market_price := d.price,
          maturity_date := d.maturity_date }
    | Except.error FactSetFailure.notFound =>
      Except.ok (nulledBond identifier isin cusip)
    | Except.error FactSetFailure.clientError =>
      Except.ok (nulledBond identifier isin cusip)

/-- C3.  Given at least one of CUSIP or ISIN: when the provider returns no
data, reports not-found, or fails with a client error, `enrich_bond` still
returns (does not raise) a Bond whose `market_price`, `coupon` and
`maturity_date` are all null; and whenever the returned data carries no
price, the Bond has `market_price = null`. -/
theorem enrich_bond_graceful_degradation (cusip isin : Option String)
    (h : optStrTruthy cusip = true ∨ optStrTruthy isin = true) :
    (∀ resp, (resp = ProviderResult.success [] ∨ resp = ProviderResult.notFound ∨
        resp = ProviderResult.clientError) →
      (enrich_bond cusip isin resp).map
          (fun b => (b.market_price, b.coupon, b.maturity_date)) =
        Except.ok (none, none, none)) ∧
    (∀ d : BondData, d.price = none →
      (enrich_bond cusip isin (ProviderResult.success [d])).map
          Bond.market_price = Except.ok none) := by
  have hguard : ¬ ¬ (optStrTruthy cusip || optStrTruthy isin) = true := by
    rcases h with h | h <;> simp [h]
  constructor
  · intro resp hresp
    rcases hresp with rfl | rfl | rfl <;>
      simp only [enrich_bond, get_bond_details, if_neg hguard, Except.map] <;>
      rfl
  · intro d hd
    simp only [enrich_bond, get_bond_details, if_neg hguard, Except.map, hd]

/-- C3 witness: a CUSIP-only bond, for the not-found provider outcome and
for a returned data record without a price. -/
theorem enrich_bond_graceful_degradation_witness :
    (enrich_bond (some "037833AA5") none ProviderResult.notFound).map
        (fun b => (b.market_price, b.coupon, b.maturity_date)) =
      Except.ok (none, none, none) ∧
    (enrich_bond (some "037833AA5") none
        (ProviderResult.success [{ issuer := some "Apple Inc" }])).map
        Bond.market_price = Except.ok none :=
  ⟨(enrich_bond_graceful_degradation (some "037833AA5") none
      (Or.inl (by decide))).1 ProviderResult.notFound (Or.inr (Or.inl rfl)),
   (enrich_bond_graceful_degradation (some "037833AA5") none
      (Or.inl (by decide))).2 { issuer := some "Apple Inc" } rfl⟩

/-- `pagr.fds.models.fibo.Company`. -/
structure Company where
  fibo_id : String
  factset_id : Option String := none
  name : String
  ticker : Option String := none
  sector : Option String := none
  industry : Option String := none
  market_cap : Option ℚ := none
  description : Option String := none
  country : Option String := none
  deriving Repr, DecidableEq

/-- `GraphBuilder._escape_string` (`builder.py` lines 431-445): double
every single quote.  The source calls str.replace, mapping each single
quote to two; here each quote character is duplicated over the list. -/
def escape_string (value : String) : String :=
  String.mk (value.data.foldr
    (fun c acc => if c = '\x27' then c :: c :: acc else c :: acc) [])

/-- `_escape_string` applied to a possibly-absent value: for a non-string
(here `None`), the source returns `str(value)`, i.e. `"None"`. -/
def escape_string_any : Option String → String
  | none => "None"
  | some s => escape_string s

/-- Rendering of a numeric value into statement text.  Python formats
floats (`100.0`); rationals print exactly (`100`); no claim depends on the
numeral formatting. -/
def renderNum (q : ℚ) : String := toString q

/-- Rendering of an optional numeric value; Python formats `None` as
`"None"`. -/
def renderOptNum : Option ℚ → String
  | none => "None"
  | some q => renderNum q

/-- An optional string property clause of a Position node (`builder.py`
lines 89-96): a comma, the field name and the single-quoted escaped
value when the value is truthy, else empty. -/
def optStrClause (fieldName : String) (v : Option String) : String :=
  if optStrTruthy v then
    ", " ++ fieldName ++ ": " ++ sglq ++ escape_string (v.getD "") ++ sglq
  else ""

/-- `pagr.fds.graph.builder.GraphBuilder` accumulated statement state
(`merge_set_statements` is never used by the embedded methods). -/
structure GraphBuilder where
  node_statements : List String := []
  relationship_statements : List String := []
  deriving Repr, DecidableEq

/-- The Position CREATE statement built by each iteration of
`GraphBuilder.add_position_nodes` (`builder.py` lines 80-109). -/
def positionCreateStatement (pos : Position) : String :=
  let ticker := escape_string_any pos.ticker
  let ticker_var := (ticker.replace "-" "_").replace "." "_"
  let security_type :=
    escape_string (if pos.security_type = "" then "Unknown" else pos.security_type)
  let weight := pos.weight.getD 0
  let isin := optStrClause "isin" pos.isin
  let cusip := optStrClause "cusip" pos.cusip
  let cost_basis :=
    if optNumTruthy pos.cost_basis then
      ", cost_basis: " ++ renderNum (pos.cost_basis.getD 0)
    else ""
  let purchase_date := optStrClause "purchase_date" pos.purchase_date
  "CREATE (pos_" ++
    (ticker_var ++ ":Position \x7bticker: " ++ sglq ++ ticker ++ sglq ++
     ", quantity: " ++ renderNum pos.quantity ++
     ", market_value: " ++ renderOptNum pos.market_value ++
     ", security_type: " ++ sglq ++ security_type ++ sglq ++
     ", weight: " ++ renderNum weight ++
     isin ++ cusip ++ cost_basis ++ purchase_date ++
     "\x7d) RETURN pos_" ++ ticker_var ++ ";")

/-- The CONTAINS relationship statement built by each iteration of
`add_position_nodes` (`builder.py` lines 112-117). -/
def containsStatement (pos : Position) (portfolio_name : String) : String :=
  "MATCH (p:Portfolio \x7bname: " ++ sglq ++ escape_string portfolio_name ++ sglq ++
    "\x7d), (pos:Position \x7bticker: " ++ sglq ++ escape_string_any pos.ticker ++ sglq ++
    "\x7d) CREATE (p)-[:CONTAINS \x7bweight: " ++ renderNum (pos.weight.getD 0) ++
    "\x7d]->(pos);"

/-- `GraphBuilder.add_position_nodes` (`builder.py` lines 69-119):
positions are unique per portfolio import, so each one appends a CREATE
node statement (never MERGE) plus a CONTAINS relationship statement. -/
def add_position_nodes (b : GraphBuilder) (positions : List Position)
    (portfolio_name : String) : GraphBuilder :=
  positions.foldl (fun b pos =>
    { b with
      node_statements := b.node_statements ++ [positionCreateStatement pos],
      relationship_statements :=
        b.relationship_statements ++ [containsStatement pos portfolio_name] }) b

/-- The Company MERGE statement built by each iteration of
`GraphBuilder.add_company_nodes` (`builder.py` lines 129-160), keyed by
the escaped FIBO id with the remaining properties in SET clauses. -/
def companyMergeStatement (ticker : String) (c : Company) : String :=
  let fibo_id := escape_string c.fibo_id
  let factset_id :=
    if optStrTruthy c.factset_id then escape_string (c.factset_id.getD "") else ""
  let name := escape_string c.name
  let ticker_clean := escape_string ticker
  let sector := if optStrTruthy c.sector then escape_string (c.sector.getD "") else ""
  let industry :=
    if optStrTruthy c.industry then escape_string (c.industry.getD "") else ""
  let country := if optStrTruthy c.country then escape_string (c.country.getD "") else ""
  let market_cap := c.market_cap.getD 0
  let description :=
    if optStrTruthy c.description then escape_string (c.description.getD "") else ""
  let factset_clause :=
    if factset_id != "" then ", c.factset_id = " ++ sglq ++ factset_id ++ sglq else ""
  let sector_clause :=
    if sector != "" then ", c.sector = " ++ sglq ++ sector ++ sglq else ""
  let industry_clause :=
    if industry != "" then ", c.industry = " ++ sglq ++ industry ++ sglq else ""
  let country_clause :=
    if country != "" then ", c.country = " ++ sglq ++ country ++ sglq else ""
  let market_cap_clause := ", c.market_cap = " ++ renderNum market_cap
  let description_clause :=
    if description != "" then ", c.description = " ++ sglq ++ description ++ sglq else ""
  ("MERGE (c:Company \x7bfibo_id: " ++ sglq ++ fibo_id ++ sglq ++ "\x7d) ") ++
    ("SET c.name = " ++ sglq ++ name ++ sglq ++ ", " ++
     "c.ticker = " ++ sglq ++ ticker_clean ++ sglq ++ " " ++
     factset_clause ++ market_cap_clause ++ " " ++
     sector_clause ++ industry_clause ++ country_clause ++
     description_clause ++ " " ++ "RETURN c;")

/-- `GraphBuilder.add_company_nodes` (`builder.py` lines 121-162): one
MERGE statement per `ticker -> company` entry, keyed by FIBO id (the dict
is modelled as an association list in insertion order). -/
def add_company_nodes (b : GraphBuilder) (companies : List (String × Company)) :
    GraphBuilder :=
  companies.foldl (fun b tc =>
    { b with node_statements := b.node_statements ++ [companyMergeStatement tc.1 tc.2] }) b

/-- C6.  Adding the same Company (same `fibo_id`) twice yields two MERGE
statements keyed by the identical escaped `fibo_id` (idempotent upsert, no
duplicate node), while adding two Positions for the same portfolio always
appends two CREATE statements, even when the two positions are the very
same record. -/
theorem builder_merge_companies_create_positions (b : GraphBuilder)
    (t : String) (c : Company) (pos : Position) (portfolio_name : String) :
    ((add_company_nodes (add_company_nodes b [(t, c)]) [(t, c)]).node_statements =
        b.node_statements ++ [companyMergeStatement t c, companyMergeStatement t c] ∧
      ∃ rest, companyMergeStatement t c =
        ("MERGE (c:Company \x7bfibo_id: " ++ sglq ++ escape_string c.fibo_id ++
          sglq ++ "\x7d) ") ++ rest) ∧
    ((add_position_nodes b [pos, pos] portfolio_name).node_statements =
        b.node_statements ++ [positionCreateStatement pos, positionCreateStatement pos] ∧
      ∃ rest, positionCreateStatement pos = "CREATE (pos_" ++ rest) := by
  refine ⟨⟨?_, ⟨_, rfl⟩⟩, ⟨?_, ⟨_, rfl⟩⟩⟩
  · simp [add_company_nodes, List.foldl]
  · simp [add_position_nodes, List.foldl]

namespace GraphQueries

/-- The `names_list` interpolation shared by every query template
(`queries.py`, e.g. line 59): each portfolio name is wrapped in single
quotes and the results are comma-joined — with no escaping.  A single
`str` argument is normalized by the source to a one-element list before
this point. -/
def namesList (portfolio_names : List String) : String :=
  String.intercalate ", " (portfolio_names.map (fun name => sglq ++ name ++ sglq))

/-- `GraphQueries.sector_exposure` (`queries.py` lines 42-71): the
stripped query template with `names_list` interpolated. -/
def sector_exposure (portfolio_names : List String) : String :=
  "MATCH (p:Portfolio)-[:CONTAINS]->(pos:Position)-[:INVESTED_IN]->(sec)\n      -[:ISSUED_BY]->(c:Company)\nWHERE p.name IN ["
    ++ namesList portfolio_names
    ++ "]\nRETURN\n    c.sector AS sector,\n    SUM(pos.market_value) AS total_exposure,\n    SUM(pos.weight) AS total_weight,\n    COUNT(pos) AS num_positions\nORDER BY total_exposure DESC;"

/-- `GraphQueries.total_company_exposure` (`queries.py` lines 228-258):
the stripped query template with `company_ticker` and `names_list`
interpolated (neither escaped). -/
def total_company_exposure (portfolio_names : List String)
    (company_ticker : String) : String :=
  ("MATCH (p:Portfolio)-[:CONTAINS]->(pos:Position)-[:INVESTED_IN]->(sec)\n      -[:ISSUED_BY]->(c:Company \x7bticker: "
      ++ sglq ++ company_ticker ++ sglq ++ "\x7d)\nWHERE p.name IN ["
      ++ namesList portfolio_names ++ "]\n")
    ++ "RETURN\n    c.name AS company_name,\n    SUM(pos.market_value) AS direct_exposure,\n    0 AS subsidiary_exposure,\n    0 AS supplier_exposure,\n    SUM(pos.market_value) AS total_exposure;"

end GraphQueries

/-- Whether `needle` occurs as a contiguous substring of `hay`. -/
def strContains (hay needle : String) : Bool :=
  decide (needle.data <:+: hay.data)

/-- One projected field of a query RETURN clause: the expression computed
and the alias it is returned under. -/
structure ReturnField where
  expr : String
  label : String
  deriving Repr, DecidableEq

/-- Rendering of a RETURN clause from its field list, in the layout the
query templates use. -/
def renderReturnFields (fields : List ReturnField) : String :=
  "RETURN\n" ++
    String.intercalate ",\n"
      (fields.map (fun f => "    " ++ f.expr ++ " AS " ++ f.label)) ++ ";"

/-- Expression returned under a given alias by a field list. -/
def fieldExpr (fields : List ReturnField) (lab : String) : Option String :=
  (fields.find? (fun f => f.label == lab)).map ReturnField.expr

/-- The five fields of the `total_company_exposure` RETURN clause. -/
def totalCompanyExposureFields : List ReturnField :=
  [⟨"c.name", "company_name"⟩,
   ⟨"SUM(pos.market_value)", "direct_exposure"⟩,
   ⟨"0", "subsidiary_exposure"⟩,
   ⟨"0", "supplier_exposure"⟩,
   ⟨"SUM(pos.market_value)", "total_exposure"⟩]

/-- C9.  For every portfolio-name list and ticker, the generated
total-company-exposure query ends in the RETURN clause whose
`subsidiary_exposure` and `supplier_exposure` fields are hard-coded to
`0`, and whose `direct_exposure` and `total_exposure` fields are both the
same aggregate `SUM(pos.market_value)` over the matched positions (total
exposure equals direct exposure). -/
theorem total_company_exposure_zero_subsidiary_supplier
    (portfolio_names : List String) (company_ticker : String) :
    (∃ pre, GraphQueries.total_company_exposure portfolio_names company_ticker =
      pre ++ renderReturnFields totalCompanyExposureFields) ∧
    fieldExpr totalCompanyExposureFields "subsidiary_exposure" = some "0" ∧
    fieldExpr totalCompanyExposureFields "supplier_exposure" = some "0" ∧
    fieldExpr totalCompanyExposureFields "direct_exposure" =
      some "SUM(pos.market_value)" ∧
    fieldExpr totalCompanyExposureFields "total_exposure" =
      fieldExpr totalCompanyExposureFields "direct_exposure" := by
  refine ⟨⟨"MATCH (p:Portfolio)-[:CONTAINS]->(pos:Position)-[:INVESTED_IN]->(sec)\n      -[:ISSUED_BY]->(c:Company \x7bticker: "
      ++ sglq ++ company_ticker ++ sglq ++ "\x7d)\nWHERE p.name IN ["
      ++ GraphQueries.namesList portfolio_names ++ "]\n", ?_⟩, ?_, ?_, ?_, ?_⟩
  · have h : renderReturnFields totalCompanyExposureFields =
        "RETURN\n    c.name AS company_name,\n    SUM(pos.market_value) AS direct_exposure,\n    0 AS subsidiary_exposure,\n    0 AS supplier_exposure,\n    SUM(pos.market_value) AS total_exposure;" := by
      rfl
    rw [h]
    rfl
  · rfl
  · rfl
  · rfl
  · rfl

set_option maxRecDepth 10000 in
/-- C5 failing input.  `GraphQueries.sector_exposure` embeds the portfolio
name without any escaping: for the name `O'Brien Portfolio`, the produced
statement contains the raw single-quoted value, and does not contain the
quote-doubled form that `_escape_string` (which the query templates never
call) would have produced. -/
theorem sector_exposure_embeds_unescaped_quote :
    strContains (GraphQueries.sector_exposure ["O" ++ sglq ++ "Brien Portfolio"])
        ("O" ++ sglq ++ "Brien") = true ∧
    strContains (GraphQueries.sector_exposure ["O" ++ sglq ++ "Brien Portfolio"])
        (escape_string ("O" ++ sglq ++ "Brien Portfolio")) = false ∧
    escape_string ("O" ++ sglq ++ "Brien Portfolio") =
      "O" ++ sglq ++ sglq ++ "Brien Portfolio" :=
  ⟨by decide, by decide, by decide⟩

/-- `pagr.fds.models.fibo.Stock`. -/
structure Stock where
  fibo_id : String
  ticker : String
  security_type : Option String := some "Stock"
  isin : Option String := none
  cusip : Option String := none
  sedol : Option String := none
  deriving Repr, DecidableEq

/-- `pagr.fds.models.fibo.Country`. -/
structure Country where
  fibo_id : String
  name : String
  iso_code : String
  region : Option String := none
  deriving Repr, DecidableEq

/-- `pagr.fds.models.fibo.Executive`. -/
structure Executive where
  fibo_id : String
  name : String
  title : Option String := none
  start_date : Option String := none
  deriving Repr, DecidableEq

/-- `pagr.fds.models.fibo.Relationship` (the optional `properties` dict is
not read by the embedded pipeline paths and is left out). -/
structure Relationship where
  rel_type : String
  source_fibo_id : String
  target_fibo_id : String
  source_type : String
  target_type : String
  deriving Repr, DecidableEq

/-- `pagr.fds.services.pipeline.PipelineStatistics`. -/
structure PipelineStatistics where
  portfolios_loaded : ℕ := 0
  positions_loaded : ℕ := 0
  stocks_enriched : ℕ := 0
  bonds_enriched : ℕ := 0
  companies_enriched : ℕ := 0
  companies_failed : ℕ := 0
  bonds_failed : ℕ := 0
  executives_enriched : ℕ := 0
  countries_enriched : ℕ := 0
  graph_nodes_created : ℕ := 0
  graph_relationships_created : ℕ := 0
  errors : List String := []
  deriving Repr, DecidableEq

/-- Python dict key membership, on an association list. -/
def dictContains {V : Type} (m : List (String × V)) (k : String) : Bool :=
  m.any (fun kv => kv.1 == k)

/-- Python dict assignment `m[k] = v`: overwrite in place, else append. -/
def dictSet {V : Type} (m : List (String × V)) (k : String) (v : V) :
    List (String × V) :=
  if dictContains m k then m.map (fun kv => if kv.1 == k then (k, v) else kv)
  else m ++ [(k, v)]

/-- As `dictSet`, for the stocks dict which the pipeline keys by
`position.cusip`, an optional string (`pipeline.py` line 256). -/
def dictSetOpt {V : Type} (m : List (Option String × V)) (k : Option String)
    (v : V) : List (Option String × V) :=
  if m.any (fun kv => kv.1 == k) then
    m.map (fun kv => if kv.1 == k then (k, v) else kv)
  else m ++ [(k, v)]

/-- Accumulated in-memory state of one `enrich_positions` run: the
statistics plus the entity maps (`pipeline.py` lines 143-147), dicts
modelled as association lists in insertion order. -/
structure EnrichState where
  stats : PipelineStatistics
  stocks : List (Option String × Stock) := []
  bonds : List (String × Bond) := []
  companies : List (String × Company) := []
  countries : List (String × Country) := []
  executives : List (String × Executive) := []
  deriving Repr, DecidableEq

/-- Outcome of `company_enricher.enrich_company` and the two dependent
calls for one stock position, as seen by `_enrich_stock_position`:
either a company plus the outcomes of the officers and geography calls
(each of which the source wraps in its own try/except), a falsy company
(`None`), an authentication/permission failure, a not-found failure, or
any other raised exception (which propagates to the `enrich_positions`
catch-all). -/
inductive StockEnrichOutcome where
  | ok (company : Company) (execsRes : Except String (List Executive))
      (geoRes : Except String (List Relationship))
  | companyNone
  | authError (msg : String)
  | notFound (msg : String)
  | unexpected (msg : String)
  deriving Repr

/-- Outcome of `bond_enricher.enrich_bond` plus the dependent
`resolve_issuer` call for one bond position, as seen by
`_enrich_bond_position`: a bond plus the issuer-resolution outcome, a
falsy bond (`None`), or a raised exception (caught by that method's own
catch-all). -/
inductive BondEnrichOutcome where
  | ok (bond : Bond) (issuerRes : Except String (Option Company))
  | bondNone
  | raised (msg : String)
  deriving Repr

/-- The officers loop of `_enrich_stock_position` (`pipeline.py` lines
261-268): store each executive by FIBO id and count it. -/
def addExecutives (st : EnrichState) (es : List Executive) : EnrichState :=
  es.foldl (fun st e =>
    { st with
      executives := dictSet st.executives e.fibo_id e,
      stats := { st.stats with
        executives_enriched := st.stats.executives_enriched + 1 } }) st

/-- The geography loop of `_enrich_stock_position` (`pipeline.py` lines
278-290): for each relationship whose target FIBO id is not yet a key of
the countries dict, store a Country under the company's country name
(note the source tests membership on `rel.target_fibo_id` but inserts
under `company.country`; transcribed as written). -/
def addGeography (st : EnrichState) (countryName : String)
    (rels : List Relationship) : EnrichState :=
  rels.foldl (fun st rel =>
    if dictContains st.countries rel.target_fibo_id then st
    else
      { st with
        countries := dictSet st.countries countryName
          { fibo_id := rel.target_fibo_id, name := countryName,
            iso_code := if countryName != "" then countryName.take 2 else "XX" },
        stats := { st.stats with
          countries_enriched := st.stats.countries_enriched + 1 } }) st

/-- `ETLPipeline._enrich_stock_position` (`pipeline.py` lines 215-309) as
a function of the enrichment outcome.  `ticker` receives the position's
primary identifier value, exactly as passed at the call site
(`pipeline.py` line 174).  A not-found failure only increments
`companies_failed`; an authentication/permission failure also records an
error; an unexpected exception is handled by the caller. -/
def enrich_stock_position (pos : Position) (ticker : String)
    (outcome : StockEnrichOutcome) (st : EnrichState) : EnrichState :=
  match outcome with
  | StockEnrichOutcome.ok company execsRes geoRes =>
    let st1 := { st with
      companies := dictSet st.companies ticker company,
      stats := { st.stats with
        companies_enriched := st.stats.companies_enriched + 1 } }
    let stock : Stock :=
      { fibo_id := "fibo:stock:" ++ ticker, ticker := ticker,
        security_type := some
          (if pos.security_type = "" then "Common Stock" else pos.security_type),
        isin := pos.isin, cusip := pos.cusip, sedol := none }
    let st2 := { st1 with
      stocks := dictSetOpt st1.stocks pos.cusip stock,
      stats := { st1.stats with
        stocks_enriched := st1.stats.stocks_enriched + 1 } }
    let st3 := match execsRes with
      | Except.ok es => addExecutives st2 es
      | Except.error _ => st2
    if optStrTruthy company.country then
      match geoRes with
      | Except.ok rels => addGeography st3 (company.country.getD "") rels
      | Except.error _ => st3
    else st3
  | StockEnrichOutcome.companyNone =>
    { st with stats := { st.stats with
        companies_failed := st.stats.companies_failed + 1 } }
  | StockEnrichOutcome.authError msg =>
    { st with stats := { st.stats with
        companies_failed := st.stats.companies_failed + 1,
        errors := st.stats.errors ++
          ["Failed to enrich stock " ++ ticker ++ ": " ++ msg] } }
  | StockEnrichOutcome.notFound _ =>
    { st with stats := { st.stats with
        companies_failed := st.stats.companies_failed + 1 } }
  | StockEnrichOutcome.unexpected _ => st

/-- `ETLPipeline._enrich_bond_position` (`pipeline.py` lines 311-391) as a
function of the enrichment outcome.  Its own catch-all records an error
and counts a bond failure; issuer-resolution failures are only logged. -/
def enrich_bond_position (pos : Position) (outcome : BondEnrichOutcome)
    (st : EnrichState) : EnrichState :=
  match outcome with
  | BondEnrichOutcome.ok bond issuerRes =>
    let pid := ((get_primary_identifier pos).getD ("", "")).2
    let st1 := { st with
      bonds := dictSet st.bonds pid bond,
      stats := { st.stats with
        bonds_enriched := st.stats.bonds_enriched + 1 } }
    match issuerRes with
    | Except.ok (some issuer) =>
      if dictContains st1.companies issuer.name then st1
      else
        let st2 := { st1 with
          companies := dictSet st1.companies issuer.name issuer,
          stats := { st1.stats with
            companies_enriched := st1.stats.companies_enriched + 1 } }
        if optStrTruthy issuer.country then
          let iso := ((issuer.country.getD "").take 2).toUpper
          if dictContains st2.countries iso then st2
          else
            { st2 with
              countries := dictSet st2.countries iso
                { fibo_id := "fibo:country:" ++ iso,
                  name := issuer.country.getD "", iso_code := iso },
              stats := { st2.stats with
                countries_enriched := st2.stats.countries_enriched + 1 } }
        else st2
    | Except.ok none => st1
    | Except.error _ => st1
  | BondEnrichOutcome.bondNone =>
    { st with stats := { st.stats with
        bonds_failed := st.stats.bonds_failed + 1 } }
  | BondEnrichOutcome.raised msg =>
    { st with stats := { st.stats with
        bonds_failed := st.stats.bonds_failed + 1,
        errors := st.stats.errors ++ ["Error enriching bond: " ++ msg] } }

/-- One iteration of the `enrich_positions` loop (`pipeline.py` lines
155-203): route by ticker presence; an unexpected exception from the
stock route is handled by the loop's catch-all, which records an error
and counts a company failure (a bond failure for ticker-less positions —
unreachable, since the bond route catches everything itself).  A position
with no identifier at all would raise in `get_primary_identifier`; the
loader guarantees at least one identifier, and the default pair here is
never produced for loader output. -/
def enrichStep (stockOracle : Position → StockEnrichOutcome)
    (bondOracle : Position → BondEnrichOutcome)
    (st : EnrichState) (pos : Position) : EnrichState :=
  let pid := (get_primary_identifier pos).getD ("", "")
  if optStrTruthy pos.ticker then
    match stockOracle pos with
    | StockEnrichOutcome.unexpected msg =>
      { st with stats := { st.stats with
          companies_failed := st.stats.companies_failed + 1,
          errors := st.stats.errors ++
            ["Unexpected error enriching " ++ pid.1 ++ "=" ++ pid.2 ++ ": " ++ msg] } }
    | outcome => enrich_stock_position pos pid.2 outcome st
  else
    enrich_bond_position pos (bondOracle pos) st

/-- `ETLPipeline.enrich_positions` (`pipeline.py` lines 123-213): iterate
all positions, one at a time, never stopping early. -/
def enrich_positions (stockOracle : Position → StockEnrichOutcome)
    (bondOracle : Position → BondEnrichOutcome)
    (positions : List Position) (stats : PipelineStatistics) : EnrichState :=
  positions.foldl (enrichStep stockOracle bondOracle) { stats := stats }

/-- Stage 3 of `ETLPipeline.execute` (`pipeline.py` lines 689-692): the
entity-enrichment stage runs over the loaded portfolio's positions and the
portfolio itself is passed through unchanged to the return at line 704
(price enrichment and graph building, stages 2 and 4, update market
values/statistics only and never drop a position). -/
def run_entity_enrichment (stockOracle : Position → StockEnrichOutcome)
    (bondOracle : Position → BondEnrichOutcome)
    (portfolio : Portfolio) (stats : PipelineStatistics) :
    Portfolio × EnrichState :=
  (portfolio, enrich_positions stockOracle bondOracle portfolio.positions stats)

/-- The officers loop touches only the executives map and its counter. -/
theorem addExecutives_failed_errors (st : EnrichState) (es : List Executive) :
    (addExecutives st es).stats.companies_failed = st.stats.companies_failed ∧
    (addExecutives st es).stats.errors = st.stats.errors := by
  induction es generalizing st with
  | nil => exact ⟨rfl, rfl⟩
  | cons e es ih =>
    simp only [addExecutives, List.foldl_cons]
    exact ih _

/-- The geography loop touches only the countries map and its counter. -/
theorem addGeography_failed_errors (st : EnrichState) (countryName : String)
    (rels : List Relationship) :
    (addGeography st countryName rels).stats.companies_failed =
      st.stats.companies_failed ∧
    (addGeography st countryName rels).stats.errors = st.stats.errors := by
  induction rels generalizing st with
  | nil => exact ⟨rfl, rfl⟩
  | cons r rs ih =>
    simp only [addGeography, List.foldl_cons]
    by_cases h : dictContains st.countries r.target_fibo_id
    · simp only [h, if_true]
      exact ih _
    · simp only [h, if_false]
      exact ih _

/-- A successful stock enrichment never changes `companies_failed` or the
error list. -/
theorem enrich_stock_ok_failed_errors (pos : Position) (t : String)
    (c : Company) (es : Except String (List Executive))
    (gs : Except String (List Relationship)) (st : EnrichState) :
    (enrich_stock_position pos t (StockEnrichOutcome.ok c es gs) st).stats.companies_failed =
      st.stats.companies_failed ∧
    (enrich_stock_position pos t (StockEnrichOutcome.ok c es gs) st).stats.errors =
      st.stats.errors := by
  cases es with
  | ok l =>
    cases gs with
    | ok rels =>
      by_cases hc : optStrTruthy c.country = true
      · simp only [enrich_stock_position, hc, if_true]
        constructor
        · rw [(addGeography_failed_errors _ _ _).1, (addExecutives_failed_errors _ _).1]
        · rw [(addGeography_failed_errors _ _ _).2, (addExecutives_failed_errors _ _).2]
      · simp only [enrich_stock_position, Bool.not_eq_true] at hc ⊢
        simp only [hc, Bool.false_eq_true, if_false]
        constructor
        · rw [(addExecutives_failed_errors _ _).1]
        · rw [(addExecutives_failed_errors _ _).2]
    | error e =>
      by_cases hc : optStrTruthy c.country = true
      · simp only [enrich_stock_position, hc, if_true]
        constructor
        · rw [(addExecutives_failed_errors _ _).1]
        · rw [(addExecutives_failed_errors _ _).2]
      · simp only [enrich_stock_position, Bool.not_eq_true] at hc ⊢
        simp only [hc, Bool.false_eq_true, if_false]
        constructor
        · rw [(addExecutives_failed_errors _ _).1]
        · rw [(addExecutives_failed_errors _ _).2]
  | error e =>
    cases gs with
    | ok rels =>
      by_cases hc : optStrTruthy c.country = true
      · simp only [enrich_stock_position, hc, if_true]
        exact addGeography_failed_errors _ _ _
      · simp only [enrich_stock_position, Bool.not_eq_true] at hc ⊢
        simp only [hc, Bool.false_eq_true, if_false]
        constructor <;> trivial
    | error e2 =>
      by_cases hc : optStrTruthy c.country = true
      · simp only [enrich_stock_position, hc, if_true]
        constructor <;> trivial
      · simp only [enrich_stock_position, Bool.not_eq_true] at hc ⊢
        simp only [hc, Bool.false_eq_true, if_false]
        constructor <;> trivial

/-- A loop step over a ticker-bearing position with a successful
enrichment changes neither `companies_failed` nor the error list. -/
theorem enrichStep_ok (so : Position → StockEnrichOutcome)
    (bo : Position → BondEnrichOutcome) (st : EnrichState) (p : Position)
    (ht : optStrTruthy p.ticker = true) (c : Company)
    (es : Except String (List Executive))
    (gs : Except String (List Relationship))
    (h : so p = StockEnrichOutcome.ok c es gs) :
    (enrichStep so bo st p).stats.companies_failed = st.stats.companies_failed ∧
    (enrichStep so bo st p).stats.errors = st.stats.errors := by
  simp only [enrichStep, ht, if_true, h]
  exact enrich_stock_ok_failed_errors _ _ _ _ _ _

/-- A loop step over a ticker-bearing position whose company enrichment
reports not-found increments `companies_failed` by exactly one and leaves
the error list unchanged. -/
theorem enrichStep_notFound (so : Position → StockEnrichOutcome)
    (bo : Position → BondEnrichOutcome) (st : EnrichState) (p : Position)
    (ht : optStrTruthy p.ticker = true) (msg : String)
    (h : so p = StockEnrichOutcome.notFound msg) :
    (enrichStep so bo st p).stats.companies_failed = st.stats.companies_failed + 1 ∧
    (enrichStep so bo st p).stats.errors = st.stats.errors := by
  simp only [enrichStep, ht, if_true, h]
  exact ⟨rfl, rfl⟩

/-- Folding the loop over positions that all succeed changes neither
`companies_failed` nor the error list. -/
theorem enrich_fold_ok (so : Position → StockEnrichOutcome)
    (bo : Position → BondEnrichOutcome) (l : List Position) (st : EnrichState)
    (h : ∀ p ∈ l, optStrTruthy p.ticker = true ∧
      ∃ c es gs, so p = StockEnrichOutcome.ok c es gs) :
    ((l.foldl (enrichStep so bo) st).stats.companies_failed =
      st.stats.companies_failed) ∧
    ((l.foldl (enrichStep so bo) st).stats.errors = st.stats.errors) := by
  induction l generalizing st with
  | nil => exact ⟨rfl, rfl⟩
  | cons p l ih =>
    obtain ⟨ht, c, es, gs, hp⟩ := h p (List.mem_cons_self p l)
    have hstep := enrichStep_ok so bo st p ht c es gs hp
    have hrest := ih (enrichStep so bo st p)
      (fun q hq => h q (List.mem_cons_of_mem p hq))
    simp only [List.foldl_cons]
    exact ⟨hrest.1.trans hstep.1, hrest.2.trans hstep.2⟩

/-- C7.  If exactly one position's company enrichment reports a provider
not-found failure and every other position enriches successfully, the
pipeline still returns the portfolio with all loaded positions, the
`companies_failed` counter is incremented by exactly 1, and the error
list is unchanged (not-found is not recorded as an error). -/
theorem pipeline_not_found_isolated
    (so : Position → StockEnrichOutcome) (bo : Position → BondEnrichOutcome)
    (portfolio : Portfolio) (stats : PipelineStatistics)
    (l₁ l₂ : List Position) (pnf : Position) (msg : String)
    (hsplit : portfolio.positions = l₁ ++ pnf :: l₂)
    (htnf : optStrTruthy pnf.ticker = true)
    (hnf : so pnf = StockEnrichOutcome.notFound msg)
    (hok : ∀ p ∈ l₁ ++ l₂, optStrTruthy p.ticker = true ∧
      ∃ c es gs, so p = StockEnrichOutcome.ok c es gs) :
    (run_entity_enrichment so bo portfolio stats).1.positions =
      portfolio.positions ∧
    (run_entity_enrichment so bo portfolio stats).2.stats.companies_failed =
      stats.companies_failed + 1 ∧
    (run_entity_enrichment so bo portfolio stats).2.stats.errors = stats.errors := by
  have hok1 : ∀ p ∈ l₁, optStrTruthy p.ticker = true ∧
      ∃ c es gs, so p = StockEnrichOutcome.ok c es gs :=
    fun p hp => hok p (List.mem_append_left _ hp)
  have hok2 : ∀ p ∈ l₂, optStrTruthy p.ticker = true ∧
      ∃ c es gs, so p = StockEnrichOutcome.ok c es gs :=
    fun p hp => hok p (List.mem_append_right _ hp)
  have h1 := enrich_fold_ok so bo l₁ { stats := stats } hok1
  have hstep := enrichStep_notFound so bo
    (l₁.foldl (enrichStep so bo) { stats := stats }) pnf htnf msg hnf
  have h2 := enrich_fold_ok so bo l₂
    (enrichStep so bo (l₁.foldl (enrichStep so bo) { stats := stats }) pnf) hok2
  refine ⟨rfl, ?_, ?_⟩
  · simp only [run_entity_enrichment, enrich_positions, hsplit,
      List.foldl_append, List.foldl_cons]
    rw [h2.1, hstep.1, h1.1]
  · simp only [run_entity_enrichment, enrich_positions, hsplit,
      List.foldl_append, List.foldl_cons]
    rw [h2.2, hstep.2, h1.2]

/-- C7 witness: a two-stock portfolio where enrichment succeeds for
`AAPL-US` and reports not-found for `MSFT-US`: the portfolio keeps both
positions, `companies_failed` goes from 0 to 1, and the error list stays
empty. -/
theorem pipeline_not_found_isolated_witness :
    (run_entity_enrichment
        (fun p => if p.ticker == some "MSFT-US" then
            StockEnrichOutcome.notFound "Ticker not found"
          else StockEnrichOutcome.ok
            { fibo_id := "fibo:company:000C7F-E", name := "Apple Inc." }
            (Except.ok []) (Except.ok []))
        (fun _ => BondEnrichOutcome.bondNone)
        { name := "P", positions :=
          [{ ticker := some "AAPL-US", quantity := 100, book_value := 19000 },
           { ticker := some "MSFT-US", quantity := 50, book_value := 21000 }] }
        {}).1.positions =
      [{ ticker := some "AAPL-US", quantity := 100, book_value := 19000 },
       { ticker := some "MSFT-US", quantity := 50, book_value := 21000 }] ∧
    (run_entity_enrichment
        (fun p => if p.ticker == some "MSFT-US" then
            StockEnrichOutcome.notFound "Ticker not found"
          else StockEnrichOutcome.ok
            { fibo_id := "fibo:company:000C7F-E", name := "Apple Inc." }
            (Except.ok []) (Except.ok []))
        (fun _ => BondEnrichOutcome.bondNone)
        { name := "P", positions :=
          [{ ticker := some "AAPL-US", quantity := 100, book_value := 19000 },
           { ticker := some "MSFT-US", quantity := 50, book_value := 21000 }] }
        {}).2.stats.companies_failed =
      ({} : PipelineStatistics).companies_failed + 1 ∧
    (run_entity_enrichment
        (fun p => if p.ticker == some "MSFT-US" then
            StockEnrichOutcome.notFound "Ticker not found"
          else StockEnrichOutcome.ok
            { fibo_id := "fibo:company:000C7F-E", name := "Apple Inc." }
            (Except.ok []) (Except.ok []))
        (fun _ => BondEnrichOutcome.bondNone)
        { name := "P", positions :=
          [{ ticker := some "AAPL-US", quantity := 100, book_value := 19000 },
           { ticker := some "MSFT-US", quantity := 50, book_value := 21000 }] }
        {}).2.stats.errors = ({} : PipelineStatistics).errors := by
  refine pipeline_not_found_isolated _ _ _ _
    [{ ticker := some "AAPL-US", quantity := 100, book_value := 19000 }] []
    { ticker := some "MSFT-US", quantity := 50, book_value := 21000 }
    "Ticker not found" rfl (by decide) rfl ?_
  intro p hp
  simp only [List.append_nil, List.mem_singleton] at hp
  subst hp
  exact ⟨by decide,
    ⟨{ fibo_id := "fibo:company:000C7F-E", name := "Apple Inc." },
     Except.ok [], Except.ok [], rfl⟩⟩

/-- C6 witness: the builder evaluated on a concrete company added twice
and a concrete position added twice. -/
theorem builder_merge_companies_create_positions_witness :
    (add_company_nodes (add_company_nodes {}
        [("AAPL-US", { fibo_id := "fibo:company:000C7F-E", name := "Apple Inc." })])
        [("AAPL-US", { fibo_id := "fibo:company:000C7F-E", name := "Apple Inc." })]).node_statements =
      ({} : GraphBuilder).node_statements ++
        [companyMergeStatement "AAPL-US"
          { fibo_id := "fibo:company:000C7F-E", name := "Apple Inc." },
         companyMergeStatement "AAPL-US"
          { fibo_id := "fibo:company:000C7F-E", name := "Apple Inc." }] ∧
    (add_position_nodes {}
        [{ ticker := some "AAPL-US", quantity := 100, book_value := 19000 },
         { ticker := some "AAPL-US", quantity := 100, book_value := 19000 }]
        "P").node_statements =
      ({} : GraphBuilder).node_statements ++
        [positionCreateStatement
          { ticker := some "AAPL-US", quantity := 100, book_value := 19000 },
         positionCreateStatement
          { ticker := some "AAPL-US", quantity := 100, book_value := 19000 }] :=
  ⟨(builder_merge_companies_create_positions {} "AAPL-US"
      { fibo_id := "fibo:company:000C7F-E", name := "Apple Inc." }
      { ticker := some "AAPL-US", quantity := 100, book_value := 19000 } "P").1.1,
   (builder_merge_companies_create_positions {} "AAPL-US"
      { fibo_id := "fibo:company:000C7F-E", name := "Apple Inc." }
      { ticker := some "AAPL-US", quantity := 100, book_value := 19000 } "P").2.1⟩

/-- C9 witness: the total-company-exposure template evaluated for one
portfolio name and one ticker. -/
theorem total_company_exposure_zero_subsidiary_supplier_witness :
    (∃ pre, GraphQueries.total_company_exposure ["P"] "AAPL-US" =
      pre ++ renderReturnFields totalCompanyExposureFields) ∧
    fieldExpr totalCompanyExposureFields "subsidiary_exposure" = some "0" :=
  ⟨(total_company_exposure_zero_subsidiary_supplier ["P"] "AAPL-US").1,
   (total_company_exposure_zero_subsidiary_supplier ["P"] "AAPL-US").2.1⟩
